import Mathlib

/-
  Verification of the solution-graph dashboard's orchestration logic:
  the comparison orchestrator (CompareNode), the email dispatcher
  (SendEmailNode), the remote task launcher and the scheduler adapter.

  The Python components are shallowly embedded: external collaborators
  (remote task API, remote file storage, SMTP transport, job scheduler)
  are modelled as explicit environment records describing the outcome of
  each external call, exceptions are modelled by an `Exc` type threaded
  through `Except` / `Option`, and the UI badges become boolean fields of
  explicit state records.  Each embedded function follows the statement
  order of its Python source.
-/

/-- Exceptions that the embedded code can raise.  `smtpAuth` stands for
`smtplib.SMTPAuthenticationError`, `smtpGeneric` for any other
`smtplib.SMTPException` (including `SMTPServerDisconnected`), and
`otherError` for a non-SMTP exception. -/
inductive Exc where
  | valueError
  | runtimeError
  | typeError
  | fileNotFound
  | smtpAuth
  | smtpGeneric
  | otherError
deriving DecidableEq, Repr

/-- Predicate classifying the SMTP exception hierarchy: everything caught by
`except (smtplib.SMTPException, smtplib.SMTPServerDisconnected)` (the
authentication error is a subclass of `SMTPException`). -/
def Exc.isSmtp : Exc → Bool
  | .smtpAuth => true
  | .smtpGeneric => true
  | _ => false

/-! ### String helpers

Kernel-computable models of the Python string operations used by the
source (`str.strip`, `str.split`, `str.lower`, `int(...)`). -/

/-- Model of Python truthiness check `not s or s.strip() == ""`:
the string is empty or consists of whitespace only. -/
def isBlank (s : String) : Bool :=
  s.data.all (fun ch => ch.isWhitespace)

/-- Model of Python `str.split(c)` on the character list: splits into the
(non-empty) list of segments between occurrences of `c`. -/
def splitAtChar (c : Char) : List Char → List (List Char)
  | [] => [[]]
  | x :: xs =>
    let r := splitAtChar c xs
    if x = c then [] :: r
    else
      match r with
      | [] => [[x]]
      | seg :: rest => (x :: seg) :: rest

/-- Model of Python `int(s)` on a string of decimal digits. -/
def charsToNat (l : List Char) : Nat :=
  l.foldl (fun acc c => acc * 10 + (c.toNat - 48)) 0

/-- Model of Python `str.strip()`: drop whitespace from both ends. -/
def pyStrip (s : String) : String :=
  String.mk (((s.data.dropWhile Char.isWhitespace).reverse.dropWhile
      Char.isWhitespace).reverse)

/-! ### SendEmailNode: credentials and scheduler adapter -/

namespace SendEmailNode

/-- Common email domain to (SMTP host, port) table.  The Python source keeps
this as a module-level dict `SMTP_PROVIDERS`; `dict.get` is modelled as a
lookup function returning `none` for an unsupported domain. -/
def SMTP_PROVIDERS (domain : String) : Option (String × Nat) :=
  if domain = "gmail.com" then some ("smtp.gmail.com", 587)
  else if domain = "outlook.com" then some ("smtp.office365.com", 587)
  else if domain = "hotmail.com" then some ("smtp.office365.com", 587)
  else if domain = "live.com" then some ("smtp.office365.com", 587)
  else if domain = "yahoo.com" then some ("smtp.mail.yahoo.com", 587)
  else if domain = "icloud.com" then some ("smtp.mail.me.com", 587)
  else none

/-- Successfully constructed email credentials (the attribute set of
`SendEmailNode.EmailCredentials` after `__init__` returns). -/
structure EmailCredentials where
  username : String
  password : String
  host : String
  port : Nat
deriving DecidableEq, Repr

/-- Model of `EmailCredentials.get_domain`: the substring of the username
after the last `@`, lowercased (`username.split("@")[-1].lower()`). -/
def get_domain (username : String) : String :=
  String.mk (((splitAtChar '@' username.data).getLastD []).map Char.toLower)

/-- Python truthiness of an optional string argument (`None` and `""` are
falsy). -/
def strTruthy : Option String → Bool
  | none => false
  | some s => s ≠ ""

/-- Python truthiness of an optional integer argument (`None` and `0` are
falsy). -/
def natTruthy : Option Nat → Bool
  | none => false
  | some n => n ≠ 0

/-- Model of `EmailCredentials.__init__`.  Raises `ValueError` when the
username or password is missing or whitespace-only; otherwise resolves
host and port from the explicit arguments with the provider table as
fallback (`host or _host`, `port or _port`), raising `ValueError` when
either resolves to a falsy value. -/
def mkEmailCredentials (username password : String) (host : Option String)
    (port : Option Nat) : Except Exc EmailCredentials :=
  if isBlank username || isBlank password then .error .valueError
  else
    let domain := get_domain username
    let tbl := SMTP_PROVIDERS domain
    let h : Option String := if strTruthy host then host else tbl.map (·.1)
    let pt : Option Nat := if natTruthy port then port else tbl.map (·.2)
    if !(strTruthy h) || !(natTruthy pt) then .error .valueError
    else .ok ⟨username, password, h.getD "", pt.getD 0⟩

/-! ### Scheduler adapter

The external `TasksScheduler` / apscheduler pair is modelled as an
association list of job ids to cron (hour, minute) triggers.
`add_job(..., replace_existing=True)` is an upsert, `remove_task` removes
the job when present. -/

/-- Registered jobs of the scheduler: job id with cron (hour, minute). -/
abbrev Scheduler := List (String × Nat × Nat)

/-- Model of `TasksScheduler.remove_task`: drop the job with the given id. -/
def removeJob (sched : Scheduler) (jid : String) : Scheduler :=
  sched.filter (fun j => j.1 ≠ jid)

/-- Model of `scheduler.add_job(..., id=jid, replace_existing=True)`:
idempotent upsert of the cron job. -/
def addJob (sched : Scheduler) (jid : String) (hour minute : Nat) : Scheduler :=
  (jid, hour, minute) :: removeJob sched jid

/-- Settings dictionary produced by `get_modal_settings` in the settings
modal: it always carries all six keys. -/
structure ModalSettings where
  subject : Option String
  body : Option String
  toAddrs : Option (List String)
  runDaily : Bool
  runDailyTime : String
  runAfterComparison : Bool
deriving Repr

/-- Model of `hour, minute = map(int, time.split(":"))`. -/
def parseHM (t : String) : Nat × Nat :=
  match splitAtChar ':' t.data with
  | h :: m :: _ => (charsToNat h, charsToNat m)
  | _ => (0, 0)

/-- Model of `SendEmailNode.update_scheduler`.  `self._modal_settings` is
`none` while the dict is still empty (falsy).  Note the Python body: when
`run_daily` is off it calls `remove_task("send_email_daily")` but then
falls through and unconditionally re-registers the `send_email_daily`
cron job. -/
def update_scheduler (m : Option ModalSettings) (sched : Scheduler) :
    Scheduler :=
  match m with
  | none => sched
  | some m =>
    let sched1 := if m.runDaily then sched else removeJob sched "send_email_daily"
    let hm := parseHM m.runDailyTime
    addJob sched1 "send_email_daily" hm.1 hm.2

/-- State touched by the settings-modal apply handler.  `body` is kept as
a string (the constructor default is `""`); the stored `subject` and
`to_addrs` values can be `None`, as they are plain attributes without a
validating setter. -/
structure EmailModalState where
  modalSettings : Option ModalSettings
  runAfterComparison : Bool
  badgeAutomated : Bool
  subject : Option String
  body : String
  toAddrs : Option (List String)
  sched : Scheduler
deriving Repr

/-- Result of one `modal_save_settings` click: the state at the point the
handler finished or raised, and the exception that escaped it (`none`
when it ran to completion). -/
structure ModalSaveOutcome where
  state : EmailModalState
  raised : Option Exc
deriving Repr

/-- Model of the `modal_save_settings` click handler, following the
source order: store the settings dict, assign the `run_after_comparison`
property (its setter only raises on a non-bool value, and the stored
value is always a bool here), update the automated badge, assign the
`subject` attribute, then assign the `body` property.  The `body` setter
raises `ValueError` when the stored settings value is not a string — the
modal stores `None` when the body input is empty — which aborts the
handler before `to_addrs`, `_update_properties` and `update_scheduler`
are reached, while the assignments already made persist.  With a string
body the handler goes on to assign `to_addrs` and call `update_scheduler`
(`_update_properties` and hiding the modal are pure presentation). -/
def modal_save_settings (m : ModalSettings) (s : EmailModalState) :
    ModalSaveOutcome :=
  let s := { s with modalSettings := some m,
                    runAfterComparison := m.runAfterComparison }
  let s := if m.runDaily || m.runAfterComparison then
             { s with badgeAutomated := true }
           else
             { s with badgeAutomated := false }
  let s := { s with subject := m.subject }
  match m.body with
  | none => { state := s, raised := some .valueError }
  | some b =>
    let s := { s with body := b, toAddrs := m.toAddrs }
    { state := { s with sched := update_scheduler s.modalSettings s.sched },
      raised := none }

/-! ### SendEmailNode: email transport -/

/-- Outcome of each external call made by the SMTP transport sequence in
`send_email`: `none` means the call succeeds, `some e` means it raises
`e`.  `isFile` models `os.path.isfile` for attachment paths. -/
structure SmtpEnv where
  connect : Option Exc
  ehloA : Option Exc
  starttls : Option Exc
  ehloB : Option Exc
  login : Option Exc
  sendMsg : Option Exc
  isFile : String → Bool

/-- Badge state of the SendEmailNode card. -/
structure EmailState where
  badgeRunning : Bool
  badgeFinished : Bool
  badgeFailed : Bool
deriving DecidableEq, Repr

/-- Model of `SendEmailNode.show_finished_badge`. -/
def show_finished_badge (s : EmailState) : EmailState :=
  { s with badgeFinished := true }

/-- Model of `SendEmailNode.hide_finished_badge`. -/
def hide_finished_badge (s : EmailState) : EmailState :=
  { s with badgeFinished := false }

/-- Model of `SendEmailNode.show_running_badge`. -/
def show_running_badge (s : EmailState) : EmailState :=
  { s with badgeRunning := true }

/-- Model of `SendEmailNode.hide_running_badge`. -/
def hide_running_badge (s : EmailState) : EmailState :=
  { s with badgeRunning := false }

/-- Model of `SendEmailNode.show_failed_badge`. -/
def show_failed_badge (s : EmailState) : EmailState :=
  { s with badgeFailed := true }

/-- Model of `SendEmailNode.hide_failed_badge`. -/
def hide_failed_badge (s : EmailState) : EmailState :=
  { s with badgeFailed := false }

/-- Result of one `send_email` call: the final badge state, the exception
that escaped to the caller (`none` when the method returned normally),
and whether the SMTP connection (`smtplib.SMTP(host, port)`) was ever
attempted. -/
structure EmailOutcome where
  state : EmailState
  raised : Option Exc
  connectAttempted : Bool
deriving Repr

/-- Model of `SendEmailNode.send_email`.  Follows the source order: hide
finished and failed badges, show the running badge, build the message and
attach files (raising `FileNotFoundError` at the first attachment path
that is not a file), then run the SMTP sequence connect / EHLO / STARTTLS
/ EHLO / login / send.  Only the `login` call sits in a try block: an
`SMTPAuthenticationError` or any other `SMTPException` raised there is
caught and converted to the failed badge; every other exception
propagates to the caller. -/
def send_email (env : SmtpEnv) (attachments : List String)
    (s : EmailState) : EmailOutcome :=
  let s := hide_finished_badge s
  let s := hide_failed_badge s
  let s := show_running_badge s
  match attachments.find? (fun p => !(env.isFile p)) with
  | some _ => ⟨s, some .fileNotFound, false⟩
  | none =>
    match env.connect with
    | some e => ⟨s, some e, true⟩
    | none =>
      match env.ehloA with
      | some e => ⟨s, some e, true⟩
      | none =>
        match env.starttls with
        | some e => ⟨s, some e, true⟩
        | none =>
          match env.ehloB with
          | some e => ⟨s, some e, true⟩
          | none =>
            match env.login with
            | some .smtpAuth =>
              ⟨show_failed_badge (hide_running_badge s), none, true⟩
            | some e =>
              if e.isSmtp then
                ⟨show_failed_badge (hide_running_badge s), none, true⟩
              else ⟨s, some e, true⟩
            | none =>
              match env.sendMsg with
              | some e => ⟨s, some e, true⟩
              | none =>
                ⟨show_finished_badge (hide_running_badge s), none, true⟩

end SendEmailNode

/-! ### CompareNode: remote task launcher and comparison orchestrator -/

namespace CompareNode

/-- Environment of `run_evaluator_session_if_needed`: the task ids of the
already-started evaluator sessions returned by `get_sessions`, the result
of `api.task.start` (`none` models a `None` task-info json), and for each
poll index whether `get_status` reports the started state at that poll. -/
structure EvalEnv where
  activeSessions : List Nat
  startResult : Option Nat
  statuses : Nat → Bool

/-- Polling loop of `run_evaluator_session_if_needed`, counting the 5-second
sleeps it performs.  Poll `k` checks the task status; when not started the
loop sleeps 5 seconds (elapsed time after `k + 1` sleeps is `5 * (k + 1)`
seconds) and breaks once the elapsed time exceeds the 300-second timeout.
The fuel argument only bounds the recursion; `61` sleeps reach 305 seconds,
so fuel `61` is never exhausted before the timeout branch fires. -/
def pollSleeps (statuses : Nat → Bool) : Nat → Nat → Nat
  | k, 0 => k
  | k, fuel + 1 =>
    if statuses k then k
    else if 5 * (k + 1) > 300 then k + 1
    else pollSleeps statuses (k + 1) fuel

/-- Model of `CompareNode.run_evaluator_session_if_needed`.  Returns the
task id, whether a new task was started, and the number of 5-second
sleeps spent polling.  When a started session already exists its task id
is returned at once; when `api.task.start` returns `None` a
`RuntimeError` is raised; otherwise the new task id is returned after the
polling loop, whether or not the task ever reached the started state. -/
def run_evaluator_session_if_needed (env : EvalEnv) :
    Except Exc (Nat × Bool × Nat) :=
  match env.activeSessions with
  | t :: _ => .ok (t, false, 0)
  | [] =>
    match env.startResult with
    | none => .error .runtimeError
    | some taskId => .ok (taskId, true, pollSleeps env.statuses 0 61)

/-- Response dictionary of `api.task.send_request`: whether the `error`
key is present, and the value of the `data` key (`none` when absent or
`None`). -/
structure Response where
  hasError : Bool
  data : Option String

/-- Environment of one `send_comparison_request` call: the launcher
environment, the outcome of `send_request`, and the remote-storage
operations used to resolve the report link (`file.exists`, download of a
file's contents, and `sly.utils.abs_url`). -/
structure CompareEnv where
  evalEnv : EvalEnv
  sendRequest : Except Exc Response
  fileExists : String → Bool
  download : String → Except Exc String
  absUrl : String → String

/-- Observable state of the CompareNode card and its result attributes.
`result_comparison_dir` and `result_comparison_link` start as `None`. -/
structure CompareState where
  evalDirs : Option (List String)
  resultComparisonDir : Option String
  resultComparisonLink : Option String
  badgeRunning : Bool
  badgeFinished : Bool
  badgeFailed : Bool
  warningShown : Bool
  failedNotifShown : Bool

/-- Model of `CompareNode.show_running_badge`. -/
def show_running_badge (s : CompareState) : CompareState :=
  { s with badgeRunning := true }

/-- Model of `CompareNode.hide_running_badge`. -/
def hide_running_badge (s : CompareState) : CompareState :=
  { s with badgeRunning := false }

/-- Model of `CompareNode.show_finished_badge`. -/
def show_finished_badge (s : CompareState) : CompareState :=
  { s with badgeFinished := true }

/-- Model of `CompareNode.hide_finished_badge`. -/
def hide_finished_badge (s : CompareState) : CompareState :=
  { s with badgeFinished := false }

/-- Model of `CompareNode.show_failed_badge` (it also shows the failed
notification box). -/
def show_failed_badge (s : CompareState) : CompareState :=
  { s with badgeFailed := true, failedNotifShown := true }

/-- Model of `CompareNode.hide_failed_badge` (it also hides the failed
notification box). -/
def hide_failed_badge (s : CompareState) : CompareState :=
  { s with badgeFailed := false, failedNotifShown := false }

/-- Model of `CompareNode._get_url_from_lnk_path`: when the remote link
file does not exist, log a warning and return the empty string; otherwise
download it, strip its contents and pass them to `abs_url`.  A failing
download raises. -/
def get_url_from_lnk_path (env : CompareEnv) (remoteLnkPath : String) :
    Except Exc String :=
  if env.fileExists remoteLnkPath then
    match env.download remoteLnkPath with
    | .error e => .error e
    | .ok contents => .ok (env.absUrl (pyStrip contents))
  else .ok ""

/-- Registered finish callbacks, modelled by whether each one returns
normally (`true`) or raises (`false`).  `runCallbacks` returns the list of
invocations actually performed (each with the `(result_dir, result_link)`
arguments) and whether the whole loop completed without an exception. -/
def runCallbacks (cbs : List Bool) (dir link : String) :
    List (String × String) × Bool :=
  match cbs with
  | [] => ([], true)
  | b :: rest =>
    if b then
      let r := runCallbacks rest dir link
      ((dir, link) :: r.1, r.2)
    else ([(dir, link)], false)

/-- Result of one `send_comparison_request` call: the final state, whether
the evaluator-session lookup/start was reached, whether `send_request`
was issued, and the callback invocations performed. -/
structure CompareOutcome where
  state : CompareState
  calledEvaluator : Bool
  sentRequest : Bool
  callbackCalls : List (String × String)

/-- State transition of the bare `except:` handler of
`send_comparison_request`: show the failed badge, hide the running
badge. -/
def failState (s : CompareState) : CompareState :=
  hide_running_badge (show_failed_badge s)

/-- Model of `CompareNode.send_comparison_request`, following the source
order.  It first hides the warning and all badges; with fewer than two
evaluation directories it shows the failed badge and the warning and
returns without any remote interaction.  Otherwise it shows the running
badge and runs the guarded body: launch/lookup the evaluator session,
send the comparison request, treat a response carrying an `error` key as
a raised `RuntimeError`, store `response.get("data")` into
`result_comparison_dir` (a missing `data` key then raises a `TypeError`
when the link path is concatenated), resolve and store the report link,
invoke the finish callbacks in order, and finally show the finished badge
and hide the running one.  Any exception inside the body lands in the
bare `except:` handler, which shows the failed badge and hides the
running one. -/
def send_comparison_request (env : CompareEnv) (cbs : List Bool)
    (s : CompareState) : CompareOutcome :=
  let s := { s with warningShown := false }
  let s := hide_failed_badge s
  let s := hide_running_badge s
  let s := hide_finished_badge s
  if (s.evalDirs.getD []).length < 2 then
    let s := show_failed_badge s
    ⟨{ s with warningShown := true }, false, false, []⟩
  else
    let s := show_running_badge s
    match run_evaluator_session_if_needed env.evalEnv with
    | .error _ => ⟨failState s, true, false, []⟩
    | .ok _ =>
      match env.sendRequest with
      | .error _ => ⟨failState s, true, true, []⟩
      | .ok resp =>
        if resp.hasError then ⟨failState s, true, true, []⟩
        else
          let s := { s with resultComparisonDir := resp.data }
          match resp.data with
          | none => ⟨failState s, true, true, []⟩
          | some dir =>
            match get_url_from_lnk_path env
                (dir ++ "/Model Comparison Report.lnk") with
            | .error _ => ⟨failState s, true, true, []⟩
            | .ok link =>
              let s := { s with resultComparisonLink := some link }
              let rc := runCallbacks cbs dir link
              if rc.2 then
                ⟨hide_running_badge (show_finished_badge s), true, true, rc.1⟩
              else ⟨failState s, true, true, rc.1⟩

/-- Initial state of a CompareNode constructed with the given evaluation
directories: no results yet, no badges, and the warning notification
shown exactly when fewer than two directories were supplied. -/
def initCompareState (evalDirs : Option (List String)) : CompareState :=
  { evalDirs := evalDirs
    resultComparisonDir := none
    resultComparisonLink := none
    badgeRunning := false
    badgeFinished := false
    badgeFailed := false
    warningShown := decide ((evalDirs.getD []).length < 2)
    failedNotifShown := false }

end CompareNode

/-! ### Combined system for the badge invariant

States reachable by arbitrary sequences of completed
`send_comparison_request` and `send_email` invocations. -/

/-- One completed invocation: either a comparison request of the
CompareNode (with the environment and callback outcomes of that run) or a
`send_email` call of the SendEmailNode (with its transport environment
and attachment list). -/
inductive Act where
  | compare (env : CompareNode.CompareEnv) (cbs : List Bool)
  | email (env : SendEmailNode.SmtpEnv) (atts : List String)

/-- Joint state of the two cards. -/
structure SysState where
  cmp : CompareNode.CompareState
  eml : SendEmailNode.EmailState

/-- Effect of one completed invocation on the joint state. -/
def stepAct : Act → SysState → SysState
  | .compare env cbs, s =>
    { s with cmp := (CompareNode.send_comparison_request env cbs s.cmp).state }
  | .email env atts, s =>
    { s with eml := (SendEmailNode.send_email env atts s.eml).state }

/-- Run a sequence of invocations from a state. -/
def runActs : List Act → SysState → SysState
  | [], s => s
  | a :: rest, s => runActs rest (stepAct a s)

/-- Initial joint state: the CompareNode constructed with the given
evaluation directories, the SendEmailNode with no badges shown. -/
def initSys (evalDirs : Option (List String)) : SysState :=
  { cmp := CompareNode.initCompareState evalDirs
    eml := { badgeRunning := false, badgeFinished := false, badgeFailed := false } }

/-! ### Helper lemmas -/

/-- The polling loop performs at most `k + fuel` sleeps when started at
poll index `k`. -/
theorem pollSleeps_le (statuses : Nat → Bool) :
    ∀ fuel k, CompareNode.pollSleeps statuses k fuel ≤ k + fuel := by
  intro fuel
  induction fuel with
  | zero => intro k; simp [CompareNode.pollSleeps]
  | succ n ih =>
    intro k
    unfold CompareNode.pollSleeps
    split
    · omega
    · split
      · omega
      · have := ih (k + 1)
        omega

/-- When some element of the list satisfies the predicate, `find?` returns
an element. -/
theorem exists_find_some_of_any {α : Type} (p : α → Bool) :
    ∀ l : List α, l.any p = true → ∃ x, l.find? p = some x := by
  intro l
  induction l with
  | nil => intro h; simp at h
  | cons a rest ih =>
    intro h
    by_cases ha : p a = true
    · exact ⟨a, by simp [List.find?, ha]⟩
    · simp only [List.any_cons, Bool.or_eq_true] at h
      rcases h with h | h
      · exact absurd h ha
      · rcases ih h with ⟨x, hx⟩
        exact ⟨x, by simp [List.find?, ha, hx]⟩

/-- When no element of the list satisfies the predicate, `find?` returns
`none`. -/
theorem find_none_of_all_not {α : Type} (p : α → Bool) :
    ∀ l : List α, (∀ x ∈ l, p x = false) → l.find? p = none := by
  intro l
  induction l with
  | nil => intro _; rfl
  | cons a rest ih =>
    intro h
    have ha := h a (by simp)
    have hstep : List.find? p (a :: rest) = List.find? p rest := by
      simp [List.find?, ha]
    rw [hstep]
    exact ih (fun x hx => h x (by simp [hx]))

/-- Running only non-raising callbacks invokes each of them once with the
result pair and completes the loop. -/
theorem runCallbacks_all_true (dir link : String) :
    ∀ cbs : List Bool, (∀ b ∈ cbs, b = true) →
      CompareNode.runCallbacks cbs dir link =
        (List.replicate cbs.length (dir, link), true) := by
  intro cbs
  induction cbs with
  | nil => intro _; rfl
  | cons b rest ih =>
    intro h
    have hb := h b (by simp)
    subst hb
    simp [CompareNode.runCallbacks, ih (fun x hx => h x (by simp [hx])),
      List.replicate]

/-- Running the callbacks when the first raising one sits after `pre`
non-raising ones invokes exactly `pre.length + 1` callbacks and aborts
the loop. -/
theorem runCallbacks_first_false (dir link : String) (post : List Bool) :
    ∀ pre : List Bool, (∀ b ∈ pre, b = true) →
      CompareNode.runCallbacks (pre ++ false :: post) dir link =
        (List.replicate (pre.length + 1) (dir, link), false) := by
  intro pre
  induction pre with
  | nil => intro _; simp [CompareNode.runCallbacks]
  | cons b rest ih =>
    intro h
    have hb := h b (by simp)
    subst hb
    simp [CompareNode.runCallbacks, ih (fun x hx => h x (by simp [hx])),
      List.replicate]

/-- Every entry of the provider table carries a non-empty host and a
non-zero port. -/
theorem SMTP_PROVIDERS_truthy (d : String) (hp : String × Nat)
    (h : SendEmailNode.SMTP_PROVIDERS d = some hp) :
    hp.1 ≠ "" ∧ hp.2 ≠ 0 := by
  unfold SendEmailNode.SMTP_PROVIDERS at h
  split_ifs at h <;> simp_all <;> simp [← h]

/-! ### Claim theorems -/

/-- Claim C7: remote task launcher contract.  When an active started
session of the evaluator exists, `run_evaluator_session_if_needed`
returns its task id without starting a new task; when none exists and
the start request returns no task information it raises a launch error;
otherwise it returns the new task id after a polling loop of 5-second
sleeps that is cut off by the 300-second timeout (at most 61 sleeps),
whether or not the task ever reached the started state. -/
theorem c7_remote_task_launcher_contract :
    (∀ (env : CompareNode.EvalEnv) (t : Nat) (rest : List Nat),
      env.activeSessions = t :: rest →
      CompareNode.run_evaluator_session_if_needed env = .ok (t, false, 0)) ∧
    (∀ env : CompareNode.EvalEnv, env.activeSessions = [] →
      env.startResult = none →
      CompareNode.run_evaluator_session_if_needed env =
        .error .runtimeError) ∧
    (∀ (env : CompareNode.EvalEnv) (tid : Nat), env.activeSessions = [] →
      env.startResult = some tid →
      CompareNode.run_evaluator_session_if_needed env =
        .ok (tid, true, CompareNode.pollSleeps env.statuses 0 61) ∧
      CompareNode.pollSleeps env.statuses 0 61 ≤ 61) := by
  refine ⟨?_, ?_, ?_⟩
  · intro env t rest h
    unfold CompareNode.run_evaluator_session_if_needed
    rw [h]
  · intro env h1 h2
    unfold CompareNode.run_evaluator_session_if_needed
    rw [h1, h2]
  · intro env tid h1 h2
    constructor
    · unfold CompareNode.run_evaluator_session_if_needed
      rw [h1, h2]
    · have := pollSleeps_le env.statuses 61 0
      omega

/-- Concrete launcher environments used by the C7 witness: one with an
active session, one whose start request returns no task info. -/
def evalEnvActiveW : CompareNode.EvalEnv :=
  { activeSessions := [5], startResult := none, statuses := fun _ => false }

/-- Launcher environment with no active session and a failing start
request. -/
def evalEnvNoStartW : CompareNode.EvalEnv :=
  { activeSessions := [], startResult := none, statuses := fun _ => false }

/-- Launcher environment with no active session whose new task never
reaches the started state. -/
def evalEnvTimeoutW : CompareNode.EvalEnv :=
  { activeSessions := [], startResult := some 7, statuses := fun _ => false }

/-- Witness for C7 at concrete environments: an active session yields its
task id, a failing start raises, and a started task that never becomes
ready still yields its id after the timeout-bounded polling. -/
theorem c7_remote_task_launcher_contract_witness :
    CompareNode.run_evaluator_session_if_needed evalEnvActiveW =
      .ok (5, false, 0) ∧
    CompareNode.run_evaluator_session_if_needed evalEnvNoStartW =
      .error .runtimeError ∧
    (CompareNode.run_evaluator_session_if_needed evalEnvTimeoutW =
      .ok (7, true, CompareNode.pollSleeps evalEnvTimeoutW.statuses 0 61) ∧
      CompareNode.pollSleeps evalEnvTimeoutW.statuses 0 61 ≤ 61) :=
  ⟨c7_remote_task_launcher_contract.1 evalEnvActiveW 5 [] rfl,
   c7_remote_task_launcher_contract.2.1 evalEnvNoStartW rfl rfl,
   c7_remote_task_launcher_contract.2.2 evalEnvTimeoutW 7 rfl rfl⟩

/-- Claim C6: `EmailCredentials` construction fails exactly when the
username or password is blank, or when the explicit host/port pair is not
(truthily) supplied and the username's domain is missing from the
provider table; and for every domain of the table, construction without
explicit host/port yields exactly the table's host and port. -/
theorem c6_email_credentials_contract :
    (∀ (u p : String) (host : Option String) (port : Option Nat),
      (∃ e, SendEmailNode.mkEmailCredentials u p host port = .error e) ↔
        ((isBlank u = true ∨ isBlank p = true) ∨
          ((SendEmailNode.strTruthy host = false ∨
              SendEmailNode.natTruthy port = false) ∧
            SendEmailNode.SMTP_PROVIDERS (SendEmailNode.get_domain u) =
              none))) ∧
    (∀ (u p h0 : String) (p0 : Nat), isBlank u = false → isBlank p = false →
      SendEmailNode.SMTP_PROVIDERS (SendEmailNode.get_domain u) =
        some (h0, p0) →
      SendEmailNode.mkEmailCredentials u p none none =
        .ok ⟨u, p, h0, p0⟩) := by
  constructor
  · intro u p host port
    rcases htbl : SendEmailNode.SMTP_PROVIDERS (SendEmailNode.get_domain u)
      with _ | ⟨h0, p0⟩
    · cases hbu : isBlank u <;> cases hbp : isBlank p <;>
        simp [SendEmailNode.mkEmailCredentials, hbu, hbp, htbl] <;>
        cases hsh : SendEmailNode.strTruthy host <;>
        cases hsp : SendEmailNode.natTruthy port <;>
        simp_all [SendEmailNode.strTruthy, SendEmailNode.natTruthy]
    · have ht := SMTP_PROVIDERS_truthy _ _ htbl
      have hh : SendEmailNode.strTruthy (some h0) = true := by
        simp [SendEmailNode.strTruthy, ht.1]
      have hp : SendEmailNode.natTruthy (some p0) = true := by
        simp [SendEmailNode.natTruthy, ht.2]
      cases hbu : isBlank u <;> cases hbp : isBlank p <;>
        simp [SendEmailNode.mkEmailCredentials, hbu, hbp, htbl] <;>
        cases hsh : SendEmailNode.strTruthy host <;>
        cases hsp : SendEmailNode.natTruthy port <;>
        simp_all [SendEmailNode.strTruthy, SendEmailNode.natTruthy]
  · intro u p h0 p0 hu hp htbl
    have ht := SMTP_PROVIDERS_truthy _ _ htbl
    simp [SendEmailNode.mkEmailCredentials, hu, hp, htbl,
      SendEmailNode.strTruthy, SendEmailNode.natTruthy, ht.1, ht.2]

/-- Witness for C6 at concrete inputs: a gmail username without explicit
host/port resolves to the table entry, and blank credentials fail. -/
theorem c6_email_credentials_contract_witness :
    SendEmailNode.mkEmailCredentials "user@gmail.com" "secret" none none =
      .ok ⟨"user@gmail.com", "secret", "smtp.gmail.com", 587⟩ ∧
    (∃ e, SendEmailNode.mkEmailCredentials "  " "secret" none none =
      .error e) :=
  ⟨c6_email_credentials_contract.2 "user@gmail.com" "secret"
      "smtp.gmail.com" 587 (by decide) (by decide) (by decide),
   (c6_email_credentials_contract.1 "  " "secret" none none).mpr
      (Or.inl (Or.inl (by decide)))⟩

/-- Notification settings with the daily-send option turned off and a
non-empty body, so the `body` setter accepts the value and the apply
handler runs to completion. -/
def settingsDailyOffW : SendEmailNode.ModalSettings :=
  { subject := none, body := some "Hey!", toAddrs := none,
    runDaily := false, runDailyTime := "09:00", runAfterComparison := false }

/-- Modal state before any settings were applied: empty settings dict,
empty scheduler, the constructor's default body. -/
def emailModalInitW : SendEmailNode.EmailModalState :=
  { modalSettings := none, runAfterComparison := false,
    badgeAutomated := false, subject := none, body := "", toAddrs := none,
    sched := [] }

/-- Claim C1, evaluated at the failing input: applying the notification
settings with the daily-send option turned off and a non-empty body runs
the handler to completion (nothing raised) and nevertheless leaves a
`send_email_daily` job registered in the scheduler, because
`update_scheduler` removes the job and then falls through to the
unconditional `add_job` re-registration. -/
theorem c1_daily_off_job_persists :
    (SendEmailNode.modal_save_settings settingsDailyOffW
        emailModalInitW).raised = none ∧
    ((SendEmailNode.modal_save_settings settingsDailyOffW
        emailModalInitW).state.sched.any
      (fun j => j.1 == "send_email_daily")) = true :=
  ⟨rfl, rfl⟩

/-- SMTP transport environment in which every external call succeeds and
every attachment path exists. -/
def smtpEnvCleanW : SendEmailNode.SmtpEnv :=
  { connect := none, ehloA := none, starttls := none, ehloB := none,
    login := none, sendMsg := none, isFile := fun _ => true }

/-- Claim C2 counterexample: a generic SMTP failure raised at the
message-send step escapes `send_email` to the caller, so it is not the
case that every SMTP failure of the transport sequence is caught inside
`send_email`. -/
theorem c2_counterexample_send_step_smtp_error_propagates :
    (SendEmailNode.send_email
      { smtpEnvCleanW with sendMsg := some .smtpGeneric } []
      ⟨false, false, false⟩).raised = some Exc.smtpGeneric := by rfl

/-- Claim C2 amended: an SMTP failure (authentication or generic) raised
during the login step is caught inside `send_email` and reported as a
failed outcome (failed badge shown, running badge hidden, finished badge
hidden, no exception reaches the caller); SMTP failures at the connect,
EHLO, STARTTLS or message-send steps propagate instead. -/
theorem c2_amended_login_smtp_failures_caught
    (env : SendEmailNode.SmtpEnv) (atts : List String)
    (s : SendEmailNode.EmailState) (e : Exc)
    (hatt : ∀ p ∈ atts, env.isFile p = true)
    (hc : env.connect = none) (he1 : env.ehloA = none)
    (hst : env.starttls = none) (he2 : env.ehloB = none)
    (hl : env.login = some e) (hsmtp : e.isSmtp = true) :
    (SendEmailNode.send_email env atts s).raised = none ∧
    (SendEmailNode.send_email env atts s).state.badgeFailed = true ∧
    (SendEmailNode.send_email env atts s).state.badgeRunning = false ∧
    (SendEmailNode.send_email env atts s).state.badgeFinished = false := by
  have hfind : atts.find? (fun p => !(env.isFile p)) = none :=
    find_none_of_all_not _ _ (fun x hx => by simp [hatt x hx])
  unfold SendEmailNode.send_email
  rw [hfind, hc, he1, hst, he2, hl]
  cases e <;> simp_all [Exc.isSmtp, SendEmailNode.show_failed_badge,
    SendEmailNode.hide_running_badge, SendEmailNode.show_running_badge,
    SendEmailNode.hide_failed_badge, SendEmailNode.hide_finished_badge]

/-- Witness for the amended C2 at a concrete input: an authentication
failure at login is absorbed and reported through the badges. -/
theorem c2_amended_login_smtp_failures_caught_witness :
    (SendEmailNode.send_email { smtpEnvCleanW with login := some .smtpAuth }
      [] ⟨false, false, false⟩).raised = none ∧
    (SendEmailNode.send_email { smtpEnvCleanW with login := some .smtpAuth }
      [] ⟨false, false, false⟩).state.badgeFailed = true ∧
    (SendEmailNode.send_email { smtpEnvCleanW with login := some .smtpAuth }
      [] ⟨false, false, false⟩).state.badgeRunning = false ∧
    (SendEmailNode.send_email { smtpEnvCleanW with login := some .smtpAuth }
      [] ⟨false, false, false⟩).state.badgeFinished = false :=
  c2_amended_login_smtp_failures_caught _ [] ⟨false, false, false⟩ .smtpAuth
    (by simp) rfl rfl rfl rfl rfl rfl

/-- Claim C8: when the attachment list contains a path that is not an
existing file, `send_email` fails with the missing-attachment error and
the SMTP connection is never attempted (hence no EHLO, STARTTLS, login or
send either, as they all live behind the connection). -/
theorem c8_missing_attachment_fails_before_connect
    (env : SendEmailNode.SmtpEnv) (atts : List String)
    (s : SendEmailNode.EmailState)
    (h : atts.any (fun p => !(env.isFile p)) = true) :
    (SendEmailNode.send_email env atts s).raised = some Exc.fileNotFound ∧
    (SendEmailNode.send_email env atts s).connectAttempted = false := by
  rcases exists_find_some_of_any _ _ h with ⟨x, hx⟩
  unfold SendEmailNode.send_email
  rw [hx]
  exact ⟨rfl, rfl⟩

/-- Witness for C8 at a concrete input: one nonexistent attachment path. -/
theorem c8_missing_attachment_fails_before_connect_witness :
    (SendEmailNode.send_email
      { smtpEnvCleanW with isFile := fun _ => false } ["missing.txt"]
      ⟨false, false, false⟩).raised = some Exc.fileNotFound ∧
    (SendEmailNode.send_email
      { smtpEnvCleanW with isFile := fun _ => false } ["missing.txt"]
      ⟨false, false, false⟩).connectAttempted = false :=
  c8_missing_attachment_fails_before_connect _ ["missing.txt"]
    ⟨false, false, false⟩ (by rfl)

/-- Claim C3: with fewer than two evaluation directories (or none at
all), `send_comparison_request` performs no evaluator-session
lookup/start, issues no request, and leaves `result_comparison_dir` and
`result_comparison_link` unchanged. -/
theorem c3_insufficient_dirs_no_request
    (env : CompareNode.CompareEnv) (cbs : List Bool)
    (s : CompareNode.CompareState)
    (h : (s.evalDirs.getD []).length < 2) :
    (CompareNode.send_comparison_request env cbs s).calledEvaluator =
      false ∧
    (CompareNode.send_comparison_request env cbs s).sentRequest = false ∧
    (CompareNode.send_comparison_request env cbs
        s).state.resultComparisonDir = s.resultComparisonDir ∧
    (CompareNode.send_comparison_request env cbs
        s).state.resultComparisonLink = s.resultComparisonLink := by
  unfold CompareNode.send_comparison_request
  simp [CompareNode.hide_failed_badge, CompareNode.hide_running_badge,
    CompareNode.hide_finished_badge, CompareNode.show_failed_badge, h]

/-- Witness for C3 at a concrete input: a single evaluation directory. -/
theorem c3_insufficient_dirs_no_request_witness :
    (CompareNode.send_comparison_request
      { evalEnv := evalEnvTimeoutW,
        sendRequest := .ok { hasError := true, data := none },
        fileExists := fun _ => true, download := fun _ => .ok "",
        absUrl := fun s => s } []
      (CompareNode.initCompareState (some ["/e1"]))).calledEvaluator =
        false ∧
    (CompareNode.send_comparison_request
      { evalEnv := evalEnvTimeoutW,
        sendRequest := .ok { hasError := true, data := none },
        fileExists := fun _ => true, download := fun _ => .ok "",
        absUrl := fun s => s } []
      (CompareNode.initCompareState (some ["/e1"]))).sentRequest = false ∧
    (CompareNode.send_comparison_request
      { evalEnv := evalEnvTimeoutW,
        sendRequest := .ok { hasError := true, data := none },
        fileExists := fun _ => true, download := fun _ => .ok "",
        absUrl := fun s => s } []
      (CompareNode.initCompareState
        (some ["/e1"]))).state.resultComparisonDir =
      (CompareNode.initCompareState (some ["/e1"])).resultComparisonDir ∧
    (CompareNode.send_comparison_request
      { evalEnv := evalEnvTimeoutW,
        sendRequest := .ok { hasError := true, data := none },
        fileExists := fun _ => true, download := fun _ => .ok "",
        absUrl := fun s => s } []
      (CompareNode.initCompareState
        (some ["/e1"]))).state.resultComparisonLink =
      (CompareNode.initCompareState (some ["/e1"])).resultComparisonLink :=
  c3_insufficient_dirs_no_request _ []
    (CompareNode.initCompareState (some ["/e1"])) (by decide)

/-- Claim C4: a response carrying an `error` key makes
`send_comparison_request` fail (failed badge shown, finished badge not
shown) and no finish callback is invoked. -/
theorem c4_error_response_failed_no_callbacks
    (env : CompareNode.CompareEnv) (cbs : List Bool)
    (s : CompareNode.CompareState) (dirs : List String)
    (tb : Nat × Bool × Nat) (d : Option String)
    (hdirs : s.evalDirs = some dirs) (hlen : 2 ≤ dirs.length)
    (hrun : CompareNode.run_evaluator_session_if_needed env.evalEnv =
      .ok tb)
    (hreq : env.sendRequest = .ok { hasError := true, data := d }) :
    (CompareNode.send_comparison_request env cbs s).state.badgeFailed =
      true ∧
    (CompareNode.send_comparison_request env cbs s).state.badgeFinished =
      false ∧
    (CompareNode.send_comparison_request env cbs s).callbackCalls = [] := by
  have hn : ¬ ((s.evalDirs.getD []).length < 2) := by
    rw [hdirs]; simpa using hlen
  simp [CompareNode.send_comparison_request, CompareNode.hide_failed_badge,
    CompareNode.hide_running_badge, CompareNode.hide_finished_badge,
    CompareNode.show_running_badge, CompareNode.show_failed_badge,
    CompareNode.failState, hn, hrun, hreq]

/-- Witness for C4 at a concrete input: two directories, a running
evaluator environment, and a response with an `error` key. -/
theorem c4_error_response_failed_no_callbacks_witness :
    (CompareNode.send_comparison_request
      { evalEnv := evalEnvTimeoutW,
        sendRequest := .ok { hasError := true, data := none },
        fileExists := fun _ => true, download := fun _ => .ok "",
        absUrl := fun s => s } [true]
      (CompareNode.initCompareState
        (some ["/e1", "/e2"]))).state.badgeFailed = true ∧
    (CompareNode.send_comparison_request
      { evalEnv := evalEnvTimeoutW,
        sendRequest := .ok { hasError := true, data := none },
        fileExists := fun _ => true, download := fun _ => .ok "",
        absUrl := fun s => s } [true]
      (CompareNode.initCompareState
        (some ["/e1", "/e2"]))).state.badgeFinished = false ∧
    (CompareNode.send_comparison_request
      { evalEnv := evalEnvTimeoutW,
        sendRequest := .ok { hasError := true, data := none },
        fileExists := fun _ => true, download := fun _ => .ok "",
        absUrl := fun s => s } [true]
      (CompareNode.initCompareState
        (some ["/e1", "/e2"]))).callbackCalls = [] :=
  c4_error_response_failed_no_callbacks _ [true]
    (CompareNode.initCompareState (some ["/e1", "/e2"])) ["/e1", "/e2"]
    (7, true, 61) none rfl (by decide) (by rfl) rfl

/-- Claim C5: a successful response whose link-artifact file does not
exist in remote storage yields a finished outcome (finished badge shown,
failed badge not shown) with the empty string stored as the comparison
link; the hypothesis that the registered callbacks return normally keeps
the run on its success path. -/
theorem c5_missing_link_artifact_finished_empty_link
    (env : CompareNode.CompareEnv) (cbs : List Bool)
    (s : CompareNode.CompareState) (dirs : List String)
    (tb : Nat × Bool × Nat) (dir : String)
    (hdirs : s.evalDirs = some dirs) (hlen : 2 ≤ dirs.length)
    (hrun : CompareNode.run_evaluator_session_if_needed env.evalEnv =
      .ok tb)
    (hreq : env.sendRequest = .ok { hasError := false, data := some dir })
    (hfe : env.fileExists (dir ++ "/Model Comparison Report.lnk") = false)
    (hcb : ∀ b ∈ cbs, b = true) :
    (CompareNode.send_comparison_request env cbs s).state.badgeFinished =
      true ∧
    (CompareNode.send_comparison_request env cbs s).state.badgeFailed =
      false ∧
    (CompareNode.send_comparison_request env cbs
        s).state.resultComparisonLink = some "" := by
  have hn : ¬ ((s.evalDirs.getD []).length < 2) := by
    rw [hdirs]; simpa using hlen
  have hurl : CompareNode.get_url_from_lnk_path env
      (dir ++ "/Model Comparison Report.lnk") = .ok "" := by
    unfold CompareNode.get_url_from_lnk_path
    rw [hfe]
    simp
  have hrc := runCallbacks_all_true dir "" cbs hcb
  simp [CompareNode.send_comparison_request, CompareNode.hide_failed_badge,
    CompareNode.hide_running_badge, CompareNode.hide_finished_badge,
    CompareNode.show_running_badge, CompareNode.show_finished_badge,
    hn, hrun, hreq, hurl, hrc]

/-- Witness for C5 at a concrete input: the link file is reported missing
by remote storage and one well-behaved callback is registered. -/
theorem c5_missing_link_artifact_finished_empty_link_witness :
    (CompareNode.send_comparison_request
      { evalEnv := evalEnvTimeoutW,
        sendRequest := .ok { hasError := false, data := some "/r1" },
        fileExists := fun _ => false, download := fun _ => .ok "",
        absUrl := fun s => s } [true]
      (CompareNode.initCompareState
        (some ["/e1", "/e2"]))).state.badgeFinished = true ∧
    (CompareNode.send_comparison_request
      { evalEnv := evalEnvTimeoutW,
        sendRequest := .ok { hasError := false, data := some "/r1" },
        fileExists := fun _ => false, download := fun _ => .ok "",
        absUrl := fun s => s } [true]
      (CompareNode.initCompareState
        (some ["/e1", "/e2"]))).state.badgeFailed = false ∧
    (CompareNode.send_comparison_request
      { evalEnv := evalEnvTimeoutW,
        sendRequest := .ok { hasError := false, data := some "/r1" },
        fileExists := fun _ => false, download := fun _ => .ok "",
        absUrl := fun s => s } [true]
      (CompareNode.initCompareState
        (some ["/e1", "/e2"]))).state.resultComparisonLink = some "" :=
  c5_missing_link_artifact_finished_empty_link _ [true]
    (CompareNode.initCompareState (some ["/e1", "/e2"])) ["/e1", "/e2"]
    (7, true, 61) "/r1" rfl (by decide) (by rfl) rfl rfl
    (by intro b hb; simpa using hb)

/-- Claim C10: when a registered finish callback raises after a
successful comparison, the bare exception handler fires: the failed badge
is shown and the finished badge is not, the callbacks registered after
the raising one are never invoked (exactly the prefix and the raising
callback run, each with the new result pair), and `result_comparison_dir`
and `result_comparison_link` keep the new successful values. -/
theorem c10_raising_callback_failed_keeps_results
    (env : CompareNode.CompareEnv) (pre post : List Bool)
    (s : CompareNode.CompareState) (dirs : List String)
    (tb : Nat × Bool × Nat) (dir link : String)
    (hdirs : s.evalDirs = some dirs) (hlen : 2 ≤ dirs.length)
    (hrun : CompareNode.run_evaluator_session_if_needed env.evalEnv =
      .ok tb)
    (hreq : env.sendRequest = .ok { hasError := false, data := some dir })
    (hurl : CompareNode.get_url_from_lnk_path env
      (dir ++ "/Model Comparison Report.lnk") = .ok link)
    (hpre : ∀ b ∈ pre, b = true) :
    (CompareNode.send_comparison_request env (pre ++ false :: post)
        s).state.badgeFailed = true ∧
    (CompareNode.send_comparison_request env (pre ++ false :: post)
        s).state.badgeFinished = false ∧
    (CompareNode.send_comparison_request env (pre ++ false :: post)
        s).callbackCalls = List.replicate (pre.length + 1) (dir, link) ∧
    (CompareNode.send_comparison_request env (pre ++ false :: post)
        s).state.resultComparisonDir = some dir ∧
    (CompareNode.send_comparison_request env (pre ++ false :: post)
        s).state.resultComparisonLink = some link := by
  have hn : ¬ ((s.evalDirs.getD []).length < 2) := by
    rw [hdirs]; simpa using hlen
  have hrc := runCallbacks_first_false dir link post pre hpre
  simp [CompareNode.send_comparison_request, CompareNode.hide_failed_badge,
    CompareNode.hide_running_badge, CompareNode.hide_finished_badge,
    CompareNode.show_running_badge, CompareNode.show_failed_badge,
    CompareNode.failState, hn, hrun, hreq, hurl, hrc]

/-- Witness for C10 at a concrete input: one well-behaved callback
followed by a raising one and one more that must never run. -/
theorem c10_raising_callback_failed_keeps_results_witness :
    (CompareNode.send_comparison_request
      { evalEnv := evalEnvTimeoutW,
        sendRequest := .ok { hasError := false, data := some "/r1" },
        fileExists := fun _ => true,
        download := fun _ => .ok "https://x/y", absUrl := fun s => s }
      ([true] ++ false :: [true])
      (CompareNode.initCompareState
        (some ["/e1", "/e2"]))).state.badgeFailed = true ∧
    (CompareNode.send_comparison_request
      { evalEnv := evalEnvTimeoutW,
        sendRequest := .ok { hasError := false, data := some "/r1" },
        fileExists := fun _ => true,
        download := fun _ => .ok "https://x/y", absUrl := fun s => s }
      ([true] ++ false :: [true])
      (CompareNode.initCompareState
        (some ["/e1", "/e2"]))).state.badgeFinished = false ∧
    (CompareNode.send_comparison_request
      { evalEnv := evalEnvTimeoutW,
        sendRequest := .ok { hasError := false, data := some "/r1" },
        fileExists := fun _ => true,
        download := fun _ => .ok "https://x/y", absUrl := fun s => s }
      ([true] ++ false :: [true])
      (CompareNode.initCompareState
        (some ["/e1", "/e2"]))).callbackCalls =
      List.replicate 2 ("/r1", "https://x/y") ∧
    (CompareNode.send_comparison_request
      { evalEnv := evalEnvTimeoutW,
        sendRequest := .ok { hasError := false, data := some "/r1" },
        fileExists := fun _ => true,
        download := fun _ => .ok "https://x/y", absUrl := fun s => s }
      ([true] ++ false :: [true])
      (CompareNode.initCompareState
        (some ["/e1", "/e2"]))).state.resultComparisonDir = some "/r1" ∧
    (CompareNode.send_comparison_request
      { evalEnv := evalEnvTimeoutW,
        sendRequest := .ok { hasError := false, data := some "/r1" },
        fileExists := fun _ => true,
        download := fun _ => .ok "https://x/y", absUrl := fun s => s }
      ([true] ++ false :: [true])
      (CompareNode.initCompareState
        (some ["/e1", "/e2"]))).state.resultComparisonLink =
      some "https://x/y" :=
  c10_raising_callback_failed_keeps_results _ [true] [true]
    (CompareNode.initCompareState (some ["/e1", "/e2"])) ["/e1", "/e2"]
    (7, true, 61) "/r1" "https://x/y" rfl (by decide) (by rfl) rfl
    (by rfl) (by intro b hb; simpa using hb)

/-- Step lemma for C9: one completed `send_comparison_request` never
leaves both the finished and the failed badge shown, whatever the
environment, the callbacks and the previous state. -/
theorem compare_request_no_both_badges
    (env : CompareNode.CompareEnv) (cbs : List Bool)
    (s : CompareNode.CompareState) :
    ((CompareNode.send_comparison_request env cbs s).state.badgeFinished &&
      (CompareNode.send_comparison_request env cbs
        s).state.badgeFailed) = false := by
  simp only [CompareNode.send_comparison_request]
  repeat' split
  all_goals simp [CompareNode.failState, CompareNode.show_failed_badge,
    CompareNode.show_finished_badge, CompareNode.show_running_badge,
    CompareNode.hide_running_badge, CompareNode.hide_failed_badge,
    CompareNode.hide_finished_badge]

/-- Step lemma for C9: one completed `send_email` call never leaves both
the finished and the failed badge shown, whatever the transport
environment, the attachments and the previous state. -/
theorem send_email_no_both_badges (env : SendEmailNode.SmtpEnv)
    (atts : List String) (s : SendEmailNode.EmailState) :
    ((SendEmailNode.send_email env atts s).state.badgeFinished &&
      (SendEmailNode.send_email env atts s).state.badgeFailed) = false := by
  simp only [SendEmailNode.send_email]
  repeat' split
  all_goals simp [SendEmailNode.show_failed_badge,
    SendEmailNode.show_finished_badge, SendEmailNode.show_running_badge,
    SendEmailNode.hide_running_badge, SendEmailNode.hide_failed_badge,
    SendEmailNode.hide_finished_badge]

/-- Claim C9: in every state reachable by any sequence of completed
`send_comparison_request` and `send_email` invocations from the freshly
constructed nodes, neither card ever shows the finished badge and the
failed badge simultaneously. -/
theorem c9_badge_invariant (evalDirs : Option (List String))
    (acts : List Act) :
    ((runActs acts (initSys evalDirs)).cmp.badgeFinished &&
      (runActs acts (initSys evalDirs)).cmp.badgeFailed) = false ∧
    ((runActs acts (initSys evalDirs)).eml.badgeFinished &&
      (runActs acts (initSys evalDirs)).eml.badgeFailed) = false := by
  have main : ∀ (l : List Act) (s : SysState),
      (s.cmp.badgeFinished && s.cmp.badgeFailed) = false →
      (s.eml.badgeFinished && s.eml.badgeFailed) = false →
      ((runActs l s).cmp.badgeFinished &&
        (runActs l s).cmp.badgeFailed) = false ∧
      ((runActs l s).eml.badgeFinished &&
        (runActs l s).eml.badgeFailed) = false := by
    intro l
    induction l with
    | nil => intro s h1 h2; exact ⟨h1, h2⟩
    | cons a rest ih =>
      intro s h1 h2
      cases a with
      | compare env cbs =>
        exact ih (stepAct (.compare env cbs) s)
          (compare_request_no_both_badges env cbs s.cmp) h2
      | email env atts =>
        exact ih (stepAct (.email env atts) s) h1
          (send_email_no_both_badges env atts s.eml)
  exact main acts (initSys evalDirs) rfl rfl
